import Mathlib

/-!
Shallow embedding of the authentication / session / ownership core of the
Go REST API (packages `auth`, `session`, `comments`, `utils`).

Machine integers are modelled as `Int`, Go errors as an explicit `Err` kind
(the spec's closed set of tagged error kinds), and fallible Go functions as
`Except Err`.  Stateful collaborators (the Redis-backed session store, the
user directory) are modelled with explicit state passing.  Functions whose
bodies live in the repository but outside the extracted sources are modelled
from the spec and say so in their doc comments.
-/

namespace ApiMc

/-- The closed set of tagged error kinds from the error-handling design
(§7 of the spec), plus the HTTP-boundary kinds the handlers use. -/
inductive Err
  | validation
  | auth
  | forbidden
  | notFound
  | expiredToken
  | invalidToken
  | signing
  | hash
  | storeErr
  | badRequest
  | unauthorized
  | internal
  deriving DecidableEq, Repr

/-- `models.User`: opaque user ID, email, password-hash field.
An empty `password` is the sanitized state. -/
structure User where
  userID : String
  email : String
  password : String
  deriving DecidableEq, Repr

/-- Modelled from the spec: the bcrypt-style hashing primitive behind
`HashPassword` is not under `src/`; it is modelled as a deterministic
injective encoding of the plaintext. -/
def hashPassword (plaintext : String) : String :=
  "bcrypt$" ++ plaintext

/-- Modelled from the spec (§4.1): `HashPassword(plaintext) -> hash`,
failing with `HashError` only if the primitive errors; the model's
primitive never does. -/
def HashPassword (plaintext : String) : Except Err String :=
  Except.ok (hashPassword plaintext)

/-- Modelled from the spec (§4.1): `ComparePasswords(hash, candidate)`
succeeds exactly when the candidate hashes to the stored hash, and fails
with `AuthError` otherwise. -/
def ComparePasswords (storedHash candidate : String) : Except Err Unit :=
  if storedHash = hashPassword candidate then Except.ok () else Except.error Err.auth

/-- Modelled from the spec (§4.1): `SanitizePassword` clears the hash
field in place; idempotent. -/
def SanitizePassword (u : User) : User :=
  { u with password := "" }

/-- Token claims (§3): subject identity ID, issued-at, expiry. -/
structure Claims where
  subject : String
  issuedAt : Int
  expiresAt : Int
  deriving DecidableEq, Repr

/-- Symbolic model of the signature: a MAC that binds exactly the signed
claims and the secret (§3: the signature is a deterministic function of
claims + shared secret, and any claim mutation invalidates it). -/
structure TokenSig where
  signedClaims : Claims
  signedWith : String
  deriving DecidableEq, Repr

/-- Signing in the symbolic model: record the claims and the secret. -/
def sign (c : Claims) (secret : String) : TokenSig :=
  ⟨c, secret⟩

/-- A bearer token: claims plus signature (§6 token wire format). -/
structure Token where
  claims : Claims
  sig : TokenSig
  deriving DecidableEq, Repr

/-- Modelled from the spec (§4.2): `GenerateToken(identity, secret, ttl)`
embeds subject ID, issued-at and issued-at+ttl as expiry, and fails with
`SigningError` on an empty secret. -/
def GenerateToken (id secret : String) (ttl now : Int) : Except Err Token :=
  if secret = "" then Except.error Err.signing
  else
    let c : Claims := { subject := id, issuedAt := now, expiresAt := now + ttl }
    Except.ok { claims := c, sig := sign c secret }

/-- Modelled from the spec (§4.2): `VerifyToken(token, secret)` checks the
signature first, then expiry; failing with `InvalidTokenError` on a bad
signature and `ExpiredTokenError` on an elapsed expiry. -/
def VerifyToken (tok : Token) (secret : String) (now : Int) : Except Err Claims :=
  if tok.sig ≠ sign tok.claims secret then Except.error Err.invalidToken
  else if tok.claims.expiresAt ≤ now then Except.error Err.expiredToken
  else Except.ok tok.claims

/-- Modelled from the spec: `jwt.GenerateJWTToken(user, cfg)` is not under
`src/`; it mints a token for the user's ID with the configured secret.
The fixed TTL stands in for the configured token lifetime, whose exact
value none of the claims depend on. -/
def GenerateJWTToken (u : User) (secret : String) (now : Int) : Except Err Token :=
  GenerateToken u.userID secret 3600 now

/-- `config.Session`: session cookie name and TTL in seconds. -/
structure SessionConfig where
  name : String
  expire : Int
  deriving DecidableEq, Repr

/-- `config.Cookie`: JWT-cookie settings; `secure`/`httpOnly` are shared
with the session cookie. -/
structure CookieConfig where
  name : String
  maxAge : Int
  secure : Bool
  httpOnly : Bool
  deriving DecidableEq, Repr

/-- `config.Server` (the part the core reads): the JWT signing secret. -/
structure ServerConfig where
  jwtSecretKey : String
  deriving DecidableEq, Repr

/-- `config.Config`, restricted to the fields the embedded code reads. -/
structure Config where
  session : SessionConfig
  cookie : CookieConfig
  server : ServerConfig
  deriving DecidableEq, Repr

/-- `net/http.Cookie`, restricted to the fields the sources set. -/
structure Cookie where
  name : String
  value : String
  path : String
  maxAge : Int
  secure : Bool
  httpOnly : Bool
  deriving DecidableEq, Repr

/-- `utils.CreateSessionCookie(cfg, session)` from the sources: name from
the session config, value = session ID, path `/`, max-age = session expiry,
secure/http-only from the cookie config. -/
def CreateSessionCookie (cfg : Config) (session : String) : Cookie :=
  { name := cfg.session.name
    value := session
    path := "/"
    maxAge := cfg.session.expire
    secure := cfg.cookie.secure
    httpOnly := cfg.cookie.httpOnly }

/-- `utils.DeleteSessionCookie(c, sessionName)` from the sources: the
expired cookie it sets (Go zero values for the unset flag fields). -/
def DeleteSessionCookie (sessionName : String) : Cookie :=
  { name := sessionName, value := "", path := "/", maxAge := -1
    secure := false, httpOnly := false }

/-- `models.Session`: the server-side session record, carrying the owning
user's ID. -/
structure Session where
  userID : String
  deriving DecidableEq, Repr

/-- One record of the key-value backend (§6): string key, opaque string
value, absolute expiry instant derived from `SET ... EX ttlSeconds`. -/
structure KVEntry where
  key : String
  value : String
  expiresAt : Int
  deriving DecidableEq, Repr

/-- The key-value backend: its records plus whether it is reachable.
An unreachable backend makes every operation fail (§7 `StoreError`). -/
structure Backend where
  entries : List KVEntry
  up : Bool
  deriving DecidableEq, Repr

/-- Backend `GET key`: the stored value while its TTL has not elapsed;
auto-eviction after the TTL makes an expired record indistinguishable
from an absent one (§3 session invariant). -/
def kvGet (entries : List KVEntry) (k : String) (now : Int) : Option String :=
  match entries.find? (fun e => e.key == k) with
  | some e => if now < e.expiresAt then some e.value else none
  | none => none

/-- Backend `DEL key`: removes every record under the key. -/
def kvDel (entries : List KVEntry) (k : String) : List KVEntry :=
  entries.filter (fun e => e.key != k)

/-- Modelled from the spec (§4.3): the Redis-backed session repository's
`CreateSession` is not under `src/`; it writes the owner's ID under a
fresh unguessable ID with expiry `now + ttlSeconds`, and surfaces a
backend failure as `StoreError`.  The generated random ID is passed in
as `newID`. -/
def repoCreateSession (b : Backend) (sess : Session) (expire now : Int)
    (newID : String) : Except Err (String × Backend) :=
  if b.up then
    Except.ok (newID,
      { b with entries := ⟨newID, sess.userID, now + expire⟩ :: b.entries })
  else Except.error Err.storeErr

/-- Modelled from the spec (§4.3): the repository's `GetSessionByID` is not
under `src/`; absent, deleted and expired records fail uniformly with
`NotFoundError`, while a backend failure fails with `StoreError`. -/
def repoGetSessionByID (b : Backend) (sessionID : String) (now : Int) :
    Except Err Session :=
  if b.up then
    match kvGet b.entries sessionID now with
    | some owner => Except.ok { userID := owner }
    | none => Except.error Err.notFound
  else Except.error Err.storeErr

/-- Modelled from the spec (§4.3): the repository's `DeleteByID` is not
under `src/`; deleting an absent session is not an error, and a backend
failure fails with `StoreError`. -/
def repoDeleteByID (b : Backend) (sessionID : String) : Except Err Backend :=
  if b.up then Except.ok { b with entries := kvDel b.entries sessionID }
  else Except.error Err.storeErr

/-- `useCase.CreateSession` from `internal/session/usecase`: delegates to
the session repository unchanged. -/
def ucCreateSession (b : Backend) (sess : Session) (expire now : Int)
    (newID : String) : Except Err (String × Backend) :=
  repoCreateSession b sess expire now newID

/-- `useCase.DeleteByID` from `internal/session/usecase`: delegates to the
session repository unchanged. -/
def ucDeleteByID (b : Backend) (sessionID : String) : Except Err Backend :=
  repoDeleteByID b sessionID

/-- `useCase.GetSessionByID` from `internal/session/usecase`: delegates to
the session repository unchanged. -/
def ucGetSessionByID (b : Backend) (sessionID : String) (now : Int) :
    Except Err Session :=
  repoGetSessionByID b sessionID now

/-- Modelled from the spec (§4.4): `utils.ValidateIsOwner` is not under
`src/`; it is the pure comparison of the acting identity with the
resource's owning identity, failing with `ForbiddenError` on mismatch. -/
def ValidateIsOwner (actorID resourceOwnerID : String) : Except Err Unit :=
  if actorID = resourceOwnerID then Except.ok () else Except.error Err.forbidden

/-- `utils.PaginationQuery`, kept opaque: the embedded use cases only pass
it through. -/
structure PaginationQuery where
  size : Int
  page : Int
  orderBy : String
  deriving DecidableEq, Repr

/-- `auth.Repository` (the external User Directory of §6), as the pure
read/write functions the auth use case calls. -/
structure AuthRepo where
  update : User → Except Err User
  delete : String → Except Err Unit
  getByID : String → Except Err User
  findByName : String → PaginationQuery → Except Err (List User)
  getUsers : PaginationQuery → Except Err (List User)
  findByEmail : String → Except Err User

/-- `models.UserWithToken`: the pair Register/Login return. -/
structure UserWithToken where
  user : User
  token : Token
  deriving DecidableEq, Repr

/-- Modelled from the spec (§7 `ValidationError`): `utils.ValidateStruct`
is not under `src/`; malformed input (here: a blank email) is rejected
prior to any processing. -/
def ValidateStruct (u : User) : Except Err Unit :=
  if u.email = "" then Except.error Err.validation else Except.ok ()

/-- Modelled from the spec: `models.User.PrepareCreate` is not under
`src/`; it replaces the plaintext password with its hash via the
Credential Manager (§4.1). -/
def PrepareCreate (u : User) : Except Err User :=
  match HashPassword u.password with
  | Except.error e => Except.error e
  | Except.ok h => Except.ok { u with password := h }

/-- Modelled from the spec: `models.User.PrepareUpdate` is not under
`src/`; the spec assigns it no behavior observable by the claims. -/
def PrepareUpdate (u : User) : Except Err User :=
  Except.ok u

/-- The user directory's stored identities, for the stateful registration
path. -/
abbrev UserStore := List User

/-- `useCase.Register` from the auth use case sources: validate, prepare
(hash), store through the repository, sanitize the created user, then mint
its JWT.  The repository `Register` call is modelled from the spec's User
Directory `Create`: it stores the prepared identity and returns it. -/
def authRegister (cfg : Config) (dir : UserStore) (user : User) (now : Int) :
    Except Err (UserWithToken × UserStore) :=
  match ValidateStruct user with
  | Except.error e => Except.error e
  | Except.ok _ =>
    match PrepareCreate user with
    | Except.error e => Except.error e
    | Except.ok prepared =>
      let createdUser := prepared
      let dir2 : UserStore := createdUser :: dir
      let sanitized := SanitizePassword createdUser
      match GenerateJWTToken sanitized cfg.server.jwtSecretKey now with
      | Except.error e => Except.error e
      | Except.ok tok => Except.ok ({ user := sanitized, token := tok }, dir2)

/-- `useCase.Login` from the auth use case sources: find the user by
email, compare passwords, sanitize, then mint the JWT. -/
def authLogin (cfg : Config) (repo : AuthRepo) (email password : String)
    (now : Int) : Except Err UserWithToken :=
  match repo.findByEmail email with
  | Except.error e => Except.error e
  | Except.ok user =>
    match ComparePasswords user.password password with
    | Except.error e => Except.error e
    | Except.ok _ =>
      let sanitized := SanitizePassword user
      match GenerateJWTToken sanitized cfg.server.jwtSecretKey now with
      | Except.error e => Except.error e
      | Except.ok tok => Except.ok { user := sanitized, token := tok }

/-- `useCase.GetByID` from the auth use case sources: fetch through the
repository, then sanitize. -/
def authGetByID (repo : AuthRepo) (userID : String) : Except Err User :=
  match repo.getByID userID with
  | Except.error e => Except.error e
  | Except.ok user => Except.ok (SanitizePassword user)

/-- `useCase.FindByName` from the auth use case sources: a bare delegation
to the repository — the result is returned exactly as stored. -/
def authFindByName (repo : AuthRepo) (name : String) (query : PaginationQuery) :
    Except Err (List User) :=
  repo.findByName name query

/-- `useCase.GetUsers` from the auth use case sources: delegates to the
repository and returns its list unchanged. -/
def authGetUsers (repo : AuthRepo) (pq : PaginationQuery) :
    Except Err (List User) :=
  repo.getUsers pq

/-- The observable calls a mutating request makes on its collaborators, in
order; the trace lets a theorem state which guards ran before a mutation. -/
inductive Effect
  | validateIsOwner (actorID ownerID : String)
  | commGetByID (commentID : String)
  | commUpdate (commentID : String)
  | commDelete (commentID : String)
  | userUpdate (userID : String)
  | userDelete (userID : String)
  deriving DecidableEq, Repr

/-- `useCase.Update` from the auth use case sources, with its collaborator
trace: validate, prepare, repository update, sanitize — no ownership
check appears anywhere on this path. -/
def authUpdate (repo : AuthRepo) (user : User) :
    Except Err User × List Effect :=
  match ValidateStruct user with
  | Except.error e => (Except.error e, [])
  | Except.ok _ =>
    match PrepareUpdate user with
    | Except.error e => (Except.error e, [])
    | Except.ok prepared =>
      match repo.update prepared with
      | Except.error e => (Except.error e, [Effect.userUpdate prepared.userID])
      | Except.ok updatedUser =>
        (Except.ok (SanitizePassword updatedUser),
         [Effect.userUpdate prepared.userID])

/-- `useCase.Delete` from the auth use case sources, with its collaborator
trace: a bare repository delete. -/
def authDelete (repo : AuthRepo) (userID : String) :
    Except Err Unit × List Effect :=
  match repo.delete userID with
  | Except.error e => (Except.error e, [Effect.userDelete userID])
  | Except.ok _ => (Except.ok (), [Effect.userDelete userID])

/-- `models.CommentBase`: the comment projection the repository's `GetByID`
returns, carrying the stored author. -/
structure CommentBase where
  commentID : String
  authorID : String
  message : String
  deriving DecidableEq, Repr

/-- `models.Comment`: the request-supplied comment value, whose author
field is attacker-controlled. -/
structure Comment where
  commentID : String
  authorID : String
  message : String
  deriving DecidableEq, Repr

/-- `comments.Repository`, as the pure functions the comments use case
calls. -/
structure CommRepo where
  getByID : String → Except Err CommentBase
  update : Comment → Except Err Comment
  delete : String → Except Err Unit

/-- `commentsUC.Update` from the comments use case sources, with its
collaborator trace: fetch the stored comment, validate ownership against
the **fetched** comment's author, then update. -/
def commentsUpdate (repo : CommRepo) (actorID : String) (comment : Comment) :
    Except Err Comment × List Effect :=
  match repo.getByID comment.commentID with
  | Except.error e => (Except.error e, [Effect.commGetByID comment.commentID])
  | Except.ok comm =>
    match ValidateIsOwner actorID comm.authorID with
    | Except.error e =>
      (Except.error e,
       [Effect.commGetByID comment.commentID,
        Effect.validateIsOwner actorID comm.authorID])
    | Except.ok _ =>
      match repo.update comment with
      | Except.error e =>
        (Except.error e,
         [Effect.commGetByID comment.commentID,
          Effect.validateIsOwner actorID comm.authorID,
          Effect.commUpdate comment.commentID])
      | Except.ok updatedComment =>
        (Except.ok updatedComment,
         [Effect.commGetByID comment.commentID,
          Effect.validateIsOwner actorID comm.authorID,
          Effect.commUpdate comment.commentID])

/-- `commentsUC.Delete` from the comments use case sources, with its
collaborator trace: fetch, validate ownership against the fetched
comment's author, then delete. -/
def commentsDelete (repo : CommRepo) (actorID : String) (commentID : String) :
    Except Err Unit × List Effect :=
  match repo.getByID commentID with
  | Except.error e => (Except.error e, [Effect.commGetByID commentID])
  | Except.ok comm =>
    match ValidateIsOwner actorID comm.authorID with
    | Except.error e =>
      (Except.error e,
       [Effect.commGetByID commentID,
        Effect.validateIsOwner actorID comm.authorID])
    | Except.ok _ =>
      match repo.delete commentID with
      | Except.error e =>
        (Except.error e,
         [Effect.commGetByID commentID,
          Effect.validateIsOwner actorID comm.authorID,
          Effect.commDelete commentID])
      | Except.ok _ =>
        (Except.ok (),
         [Effect.commGetByID commentID,
          Effect.validateIsOwner actorID comm.authorID,
          Effect.commDelete commentID])

/-- The outcomes an auth handler can produce at the HTTP boundary. -/
inductive HResp
  | errResp (e : Err)
  | unauthorized
  | created (body : UserWithToken)
  | okJSON (body : UserWithToken)
  | okNoContent
  deriving DecidableEq, Repr

/-- `handlers.Register` from the auth HTTP sources: register through the
auth use case, create the session, set the session cookie.  The handler
returns the response together with the user store, the session backend and
the cookies it set.  The body is modelled as the decoded `models.User`
(without a user-ID field, which registration does not read). -/
def registerHandler (cfg : Config) (dir : UserStore) (b : Backend)
    (body : User) (now : Int) (newSessID : String) :
    HResp × UserStore × Backend × List Cookie :=
  match authRegister cfg dir body now with
  | Except.error e => (HResp.errResp e, dir, b, [])
  | Except.ok (createdUser, dir2) =>
    match ucCreateSession b { userID := createdUser.user.userID }
        cfg.session.expire now newSessID with
    | Except.error e => (HResp.errResp e, dir2, b, [])
    | Except.ok (sess, b2) =>
      (HResp.created createdUser, dir2, b2, [CreateSessionCookie cfg sess])

/-- `handlers.Login` from the auth HTTP sources: login through the auth
use case, create the session, set the session cookie. -/
def loginHandler (cfg : Config) (repo : AuthRepo) (b : Backend)
    (email password : String) (now : Int) (newSessID : String) :
    HResp × Backend × List Cookie :=
  match authLogin cfg repo email password now with
  | Except.error e => (HResp.errResp e, b, [])
  | Except.ok userWithToken =>
    match ucCreateSession b { userID := userWithToken.user.userID }
        cfg.session.expire now newSessID with
    | Except.error e => (HResp.errResp e, b, [])
    | Except.ok (sess, b2) =>
      (HResp.okJSON userWithToken, b2, [CreateSessionCookie cfg sess])

/-- `echo.Context.Cookie(name)`: the value of the request cookie with the
given name, if the request carries one. -/
def cookieLookup (reqCookies : List (String × String)) (name : String) :
    Option String :=
  (reqCookies.find? (fun c => c.1 == name)).map (fun c => c.2)

/-- `handlers.Logout` from the auth HTTP sources: it looks up the request
cookie under the hard-coded name `"session-id"` (not the configured
session name), answers 401 when that cookie is absent, and otherwise
deletes the session and expires the configured session cookie. -/
def logoutHandler (cfg : Config) (b : Backend)
    (reqCookies : List (String × String)) :
    HResp × Backend × List Cookie :=
  match cookieLookup reqCookies "session-id" with
  | none => (HResp.unauthorized, b, [])
  | some v =>
    match ucDeleteByID b v with
    | Except.error e => (HResp.errResp e, b, [])
    | Except.ok b2 =>
      (HResp.okNoContent, b2, [DeleteSessionCookie cfg.session.name])

/-- `handlers.Update` from the auth HTTP sources, with its collaborator
trace: parse the path user ID, bind the body onto it, and call the auth
use case's `Update` — the acting identity is never consulted.  `uuid.Parse`
is modelled as rejecting exactly the empty string, ID strings staying
opaque; the JSON body is modelled without a user-ID field, so the path
parameter's ID survives the bind. -/
def handlersUpdate (repo : AuthRepo) (_actorID paramUserID : String)
    (body : User) : Except Err User × List Effect :=
  if paramUserID = "" then (Except.error Err.badRequest, [])
  else authUpdate repo { body with userID := paramUserID }

/-- `handlers.Delete` from the auth HTTP sources, with its collaborator
trace: parse the path user ID and call the auth use case's `Delete` — the
acting identity is never consulted. -/
def handlersDelete (repo : AuthRepo) (_actorID paramUserID : String) :
    Except Err Unit × List Effect :=
  if paramUserID = "" then (Except.error Err.badRequest, [])
  else authDelete repo paramUserID

/-- C8: for every configuration and session ID string, `CreateSessionCookie`
returns a cookie whose value is the session ID, whose path is `/`, whose
max-age equals the configured session TTL, and whose secure and http-only
flags are taken from the configuration. -/
theorem C8_session_cookie_fields (cfg : Config) (sessionID : String) :
    (CreateSessionCookie cfg sessionID).value = sessionID ∧
    (CreateSessionCookie cfg sessionID).path = "/" ∧
    (CreateSessionCookie cfg sessionID).maxAge = cfg.session.expire ∧
    (CreateSessionCookie cfg sessionID).secure = cfg.cookie.secure ∧
    (CreateSessionCookie cfg sessionID).httpOnly = cfg.cookie.httpOnly :=
  ⟨rfl, rfl, rfl, rfl, rfl⟩

/-- C4: `VerifyToken` checks the signature before the expiry — every token
whose signature does not verify under the supplied secret fails with
`InvalidTokenError`, never with `ExpiredTokenError`, whatever expiry the
token embeds. -/
theorem C4_bad_signature_fails_invalid_never_expired (tok : Token)
    (secret : String) (now : Int) (h : tok.sig ≠ sign tok.claims secret) :
    VerifyToken tok secret now = Except.error Err.invalidToken := by
  simp [VerifyToken, h]

/-- A token whose claims were tampered with after signing, and whose
embedded expiry is already in the past. -/
def tamperedToken : Token :=
  { claims := { subject := "victim", issuedAt := 0, expiresAt := -10 }
    sig := sign { subject := "attacker", issuedAt := 0, expiresAt := -10 } "sec" }

/-- Witness for C4: the tampered, long-expired token is rejected as invalid,
not as expired. -/
theorem C4_witness :
    VerifyToken tamperedToken "sec" 0 = Except.error Err.invalidToken :=
  C4_bad_signature_fails_invalid_never_expired tamperedToken "sec" 0 (by decide)

/-- C5: token round-trip — for every identity ID, non-empty secret and
positive TTL, verifying a freshly generated token under the same secret
succeeds and yields claims whose subject is that ID. -/
theorem C5_token_round_trip (id secret : String) (ttl now : Int)
    (hsec : secret ≠ "") (httl : 0 < ttl) :
    ∃ tok : Token,
      GenerateToken id secret ttl now = Except.ok tok ∧
      ∃ claims : Claims,
        VerifyToken tok secret now = Except.ok claims ∧ claims.subject = id := by
  refine ⟨{ claims := { subject := id, issuedAt := now, expiresAt := now + ttl }
            sig := sign { subject := id, issuedAt := now, expiresAt := now + ttl } secret },
          ?_, { subject := id, issuedAt := now, expiresAt := now + ttl }, ?_, rfl⟩
  · simp [GenerateToken, hsec]
  · simp [VerifyToken]
    omega

/-- Witness for C5: the round-trip at a concrete identity, secret and TTL. -/
theorem C5_witness :
    ∃ tok : Token,
      GenerateToken "u1" "sec" 60 0 = Except.ok tok ∧
      ∃ claims : Claims,
        VerifyToken tok "sec" 0 = Except.ok claims ∧ claims.subject = "u1" :=
  C5_token_round_trip "u1" "sec" 60 0 (by decide) (by decide)

/-- After `DEL key`, no record under that key can be found. -/
theorem kvDel_find_none (entries : List KVEntry) (k : String) :
    List.find? (fun e => e.key == k) (kvDel entries k) = none := by
  induction entries with
  | nil => rfl
  | cons e rest ih =>
    by_cases h : e.key = k
    · simp [kvDel, h, ih]
    · simp [kvDel, List.find?, h, ih]

/-- C6: for every owner, a successful `CreateSession(ownerA, 60)` with some
fresh session ID followed by an immediate `GetSessionByID` returns a session
owned by `ownerA`, and after `DeleteByID` the same lookup fails with
`NotFoundError`. -/
theorem C6_session_lifecycle (b : Backend) (ownerA : String) (now : Int)
    (newID : String) (hup : b.up = true) :
    ∃ b1 : Backend,
      ucCreateSession b { userID := ownerA } 60 now newID =
        Except.ok (newID, b1) ∧
      ucGetSessionByID b1 newID now = Except.ok { userID := ownerA } ∧
      ∃ b2 : Backend,
        ucDeleteByID b1 newID = Except.ok b2 ∧
        ucGetSessionByID b2 newID now = Except.error Err.notFound := by
  refine ⟨{ b with entries := ⟨newID, ownerA, now + 60⟩ :: b.entries }, ?_, ?_,
          { b with entries := kvDel (⟨newID, ownerA, now + 60⟩ :: b.entries) newID },
          ?_, ?_⟩
  · simp [ucCreateSession, repoCreateSession, hup]
  · simp [ucGetSessionByID, repoGetSessionByID, hup, kvGet, List.find?,
          show now < now + 60 by omega]
  · simp [ucDeleteByID, repoDeleteByID, hup]
  · simp [ucGetSessionByID, repoGetSessionByID, hup, kvGet, kvDel_find_none]

/-- Witness for C6: the lifecycle run on an initially empty, reachable
backend. -/
theorem C6_witness :
    ∃ b1 : Backend,
      ucCreateSession { entries := [], up := true } { userID := "ownerA" } 60 0
          "s1" = Except.ok ("s1", b1) ∧
      ucGetSessionByID b1 "s1" 0 = Except.ok { userID := "ownerA" } ∧
      ∃ b2 : Backend,
        ucDeleteByID b1 "s1" = Except.ok b2 ∧
        ucGetSessionByID b2 "s1" 0 = Except.error Err.notFound :=
  C6_session_lifecycle { entries := [], up := true } "ownerA" 0 "s1" rfl

/-- C7: a backend failure during any session operation is surfaced as
`StoreError`; in particular `GetSessionByID` never reports a backend
failure as `NotFoundError`, for every session ID. -/
theorem C7_store_error_propagates (b : Backend) (sessionID ownerID : String)
    (expire now : Int) (newID : String) (hdown : b.up = false) :
    ucGetSessionByID b sessionID now = Except.error Err.storeErr ∧
    ucCreateSession b { userID := ownerID } expire now newID =
      Except.error Err.storeErr ∧
    ucDeleteByID b sessionID = Except.error Err.storeErr ∧
    ucGetSessionByID b sessionID now ≠ Except.error Err.notFound := by
  refine ⟨?_, ?_, ?_, ?_⟩ <;>
    simp [ucGetSessionByID, repoGetSessionByID, ucCreateSession,
          repoCreateSession, ucDeleteByID, repoDeleteByID, hdown]

/-- Witness for C7: every session operation on a concrete unreachable
backend reports `StoreError`, never `NotFoundError`. -/
theorem C7_witness :
    ucGetSessionByID { entries := [], up := false } "s1" 0 =
      Except.error Err.storeErr ∧
    ucCreateSession { entries := [], up := false } { userID := "ownerA" } 60 0
      "s2" = Except.error Err.storeErr ∧
    ucDeleteByID { entries := [], up := false } "s1" =
      Except.error Err.storeErr ∧
    ucGetSessionByID { entries := [], up := false } "s1" 0 ≠
      Except.error Err.notFound :=
  C7_store_error_propagates { entries := [], up := false } "s1" "ownerA" 60 0
    "s2" rfl

/-- A user directory whose stored identity `u1` still carries its password
hash, as the external User Directory returns it. -/
def leakedUser : User :=
  { userID := "u1", email := "bob@x.com", password := hashPassword "pw1" }

/-- An in-memory instantiation of the auth repository holding `leakedUser`;
every mutation succeeds. -/
def authRepoFx : AuthRepo :=
  { update := fun u => Except.ok u
    delete := fun _ => Except.ok ()
    getByID := fun _ => Except.ok leakedUser
    findByName := fun _ _ => Except.ok [leakedUser]
    getUsers := fun _ => Except.ok [leakedUser]
    findByEmail := fun _ => Except.ok leakedUser }

/-- A pagination query; the embedded use cases only pass it through. -/
def pqFx : PaginationQuery := { size := 10, page := 1, orderBy := "" }

/-- The update request body acting user `user-B` submits against user
`user-A`'s account. -/
def updateBodyFx : User :=
  { userID := "", email := "bob@x.com", password := "newpass" }

/-- C1: the claim asserts every mutating path calls `ValidateIsOwner`, but
the auth handlers' user Update and Delete reach the repository mutation
with no ownership check anywhere on their paths: acting user `user-B`
successfully rewrites and deletes user `user-A`'s record, and the
collaborator trace contains no `validateIsOwner` call. -/
theorem C1_user_update_delete_skip_owner_guard :
    (handlersUpdate authRepoFx "user-B" "user-A" updateBodyFx).1 =
      Except.ok { userID := "user-A", email := "bob@x.com", password := "" } ∧
    (handlersUpdate authRepoFx "user-B" "user-A" updateBodyFx).2 =
      [Effect.userUpdate "user-A"] ∧
    (∀ a o : String,
      Effect.validateIsOwner a o ∉
        (handlersUpdate authRepoFx "user-B" "user-A" updateBodyFx).2) ∧
    (handlersDelete authRepoFx "user-B" "user-A").1 = Except.ok () ∧
    (handlersDelete authRepoFx "user-B" "user-A").2 =
      [Effect.userDelete "user-A"] ∧
    (∀ a o : String,
      Effect.validateIsOwner a o ∉
        (handlersDelete authRepoFx "user-B" "user-A").2) := by
  refine ⟨rfl, rfl, ?_, rfl, rfl, ?_⟩ <;>
    · intro a o hmem
      simp [handlersUpdate, handlersDelete, authUpdate, authDelete,
            ValidateStruct, PrepareUpdate, authRepoFx, updateBodyFx] at hmem

/-- C2: the claim asserts every user a core operation returns is
sanitized, but `FindByName` and `GetUsers` hand the repository's users
straight through with the stored password hash intact, while `GetByID`
on the same repository does sanitize. -/
theorem C2_find_by_name_get_users_return_unsanitized :
    authFindByName authRepoFx "bob" pqFx = Except.ok [leakedUser] ∧
    authGetUsers authRepoFx pqFx = Except.ok [leakedUser] ∧
    leakedUser.password = hashPassword "pw1" ∧
    hashPassword "pw1" ≠ "" ∧
    authGetByID authRepoFx "u1" =
      Except.ok { userID := "u1", email := "bob@x.com", password := "" } := by
  refine ⟨rfl, rfl, rfl, ?_, rfl⟩
  decide

/-- A configuration whose session cookie is named `sid`, not the hard-coded
`session-id` the Logout handler looks up. -/
def cfgFx : Config :=
  { session := { name := "sid", expire := 3600 }
    cookie := { name := "jwt", maxAge := 600, secure := false, httpOnly := true }
    server := { jwtSecretKey := "sec" } }

/-- The reachable, initially empty session backend. -/
def emptyBackend : Backend := { entries := [], up := true }

/-- The session backend right after the login flow created session `s1`
for `u1`. -/
def backendAfterLogin : Backend :=
  { entries := [⟨"s1", "u1", 3600⟩], up := true }

/-- The sanitized user-with-token payload the login flow returns for
`leakedUser` under `cfgFx` at time 0. -/
def loginPayloadFx : UserWithToken :=
  { user := { userID := "u1", email := "bob@x.com", password := "" }
    token := { claims := { subject := "u1", issuedAt := 0, expiresAt := 3600 }
               sig := sign { subject := "u1", issuedAt := 0, expiresAt := 3600 } "sec" } }

/-- C3: the claim asserts a Logout request carrying the session cookie
Login set (under the configured session name) deletes the session record;
but with the session cookie configured as `sid`, Login sets cookie
`(sid, s1)` while Logout looks up the hard-coded name `session-id`,
answers 401, deletes nothing, and `GetSessionByID` still succeeds on
`s1`. -/
theorem C3_logout_misses_configured_session_cookie :
    loginHandler cfgFx authRepoFx emptyBackend "bob@x.com" "pw1" 0 "s1" =
      (HResp.okJSON loginPayloadFx, backendAfterLogin,
       [CreateSessionCookie cfgFx "s1"]) ∧
    (CreateSessionCookie cfgFx "s1").name = cfgFx.session.name ∧
    cfgFx.session.name ≠ "session-id" ∧
    logoutHandler cfgFx backendAfterLogin [(cfgFx.session.name, "s1")] =
      (HResp.unauthorized, backendAfterLogin, []) ∧
    ucGetSessionByID backendAfterLogin "s1" 0 =
      Except.ok { userID := "u1" } := by
  refine ⟨?_, rfl, by decide, ?_, ?_⟩
  · simp [loginHandler, authLogin, authRepoFx, leakedUser, ComparePasswords,
          SanitizePassword, GenerateJWTToken, GenerateToken, cfgFx,
          ucCreateSession, repoCreateSession, emptyBackend, backendAfterLogin,
          loginPayloadFx, sign]
  · simp [logoutHandler, cookieLookup, cfgFx]
  · simp [ucGetSessionByID, repoGetSessionByID, backendAfterLogin, kvGet,
          List.find?]

/-- C9: registration is not atomic with session creation — whenever user
creation succeeds and the subsequent `CreateSession` fails, the Register
handler returns an error response, sets no cookie, and the user store it
hands back is the post-creation one, holding one more record than before
(the created user is not removed). -/
theorem C9_register_session_failure_keeps_user (cfg : Config)
    (dir : UserStore) (b : Backend) (body : User) (now : Int)
    (newSessID : String) (createdUser : UserWithToken) (dir2 : UserStore)
    (hreg : authRegister cfg dir body now = Except.ok (createdUser, dir2))
    (hdown : b.up = false) :
    registerHandler cfg dir b body now newSessID =
      (HResp.errResp Err.storeErr, dir2, b, []) ∧
    dir2.length = dir.length + 1 := by
  constructor
  · simp [registerHandler, hreg, ucCreateSession, repoCreateSession, hdown]
  · unfold authRegister at hreg
    split at hreg
    · simp at hreg
    · split at hreg
      · simp at hreg
      · dsimp only at hreg
        split at hreg
        · simp at hreg
        · simp only [Except.ok.injEq, Prod.mk.injEq] at hreg
          rw [← hreg.2]
          simp

/-- The registration request body for the witness run. -/
def regBodyFx : User :=
  { userID := "u7", email := "ann@x.com", password := "secret1" }

/-- The unreachable session backend for the witness run. -/
def downBackend : Backend := { entries := [], up := false }

/-- What the auth use case returns for the witness registration. -/
def regPayloadFx : UserWithToken :=
  { user := { userID := "u7", email := "ann@x.com", password := "" }
    token := { claims := { subject := "u7", issuedAt := 0, expiresAt := 3600 }
               sig := sign { subject := "u7", issuedAt := 0, expiresAt := 3600 } "sec" } }

/-- The user store after the witness registration: the hashed record was
created. -/
def dirAfterRegFx : UserStore :=
  [{ userID := "u7", email := "ann@x.com", password := hashPassword "secret1" }]

/-- Witness for C9: the concrete registration whose session creation fails
against the unreachable backend keeps the created user record. -/
theorem C9_witness :
    registerHandler cfgFx [] downBackend regBodyFx 0 "s9" =
      (HResp.errResp Err.storeErr, dirAfterRegFx, downBackend, []) ∧
    dirAfterRegFx.length = List.length ([] : UserStore) + 1 :=
  C9_register_session_failure_keeps_user cfgFx [] downBackend regBodyFx 0 "s9"
    regPayloadFx dirAfterRegFx rfl rfl

/-- C10: the comments Update and Delete use cases validate ownership
against the author of the comment fetched from the repository — the
request body's author field occurs nowhere in the statement — and when the
fetch fails, its error is returned with neither an ownership check nor a
mutation in the trace. -/
theorem C10_comments_guard_uses_stored_author (repo : CommRepo)
    (actorID : String) (comment : Comment) :
    (∀ e : Err, repo.getByID comment.commentID = Except.error e →
      commentsUpdate repo actorID comment =
        (Except.error e, [Effect.commGetByID comment.commentID]) ∧
      commentsDelete repo actorID comment.commentID =
        (Except.error e, [Effect.commGetByID comment.commentID])) ∧
    (∀ comm : CommentBase, repo.getByID comment.commentID = Except.ok comm →
      (actorID ≠ comm.authorID →
        commentsUpdate repo actorID comment =
          (Except.error Err.forbidden,
           [Effect.commGetByID comment.commentID,
            Effect.validateIsOwner actorID comm.authorID]) ∧
        commentsDelete repo actorID comment.commentID =
          (Except.error Err.forbidden,
           [Effect.commGetByID comment.commentID,
            Effect.validateIsOwner actorID comm.authorID])) ∧
      (actorID = comm.authorID →
        (commentsUpdate repo actorID comment).2 =
          [Effect.commGetByID comment.commentID,
           Effect.validateIsOwner actorID comm.authorID,
           Effect.commUpdate comment.commentID] ∧
        (commentsDelete repo actorID comment.commentID).2 =
          [Effect.commGetByID comment.commentID,
           Effect.validateIsOwner actorID comm.authorID,
           Effect.commDelete comment.commentID])) := by
  constructor
  · intro e he
    constructor
    · simp [commentsUpdate, he]
    · simp [commentsDelete, he]
  · intro comm hc
    constructor
    · intro hne
      constructor
      · simp [commentsUpdate, hc, ValidateIsOwner, hne]
      · simp [commentsDelete, hc, ValidateIsOwner, hne]
    · intro heq
      constructor
      · cases hupd : repo.update comment <;>
          simp [commentsUpdate, hc, ValidateIsOwner, heq, hupd]
      · cases hdel : repo.delete comment.commentID <;>
          simp [commentsDelete, hc, ValidateIsOwner, heq, hdel]

/-- A comments repository storing comment `c1` authored by `alice`; every
mutation succeeds. -/
def commRepoFx : CommRepo :=
  { getByID := fun cid =>
      if cid = "c1" then Except.ok ⟨"c1", "alice", "hello"⟩
      else Except.error Err.notFound
    update := fun c => Except.ok c
    delete := fun _ => Except.ok () }

/-- Acting user `bob` submits an update for `c1` whose body claims `bob`
as the author. -/
def commentFx : Comment :=
  { commentID := "c1", authorID := "bob", message := "rewritten" }

/-- Witness for C10: although the request body names `bob` as author, the
guard compares `bob` with the stored author `alice` and both mutations are
refused with `ForbiddenError` before touching the repository. -/
theorem C10_witness :
    commentsUpdate commRepoFx "bob" commentFx =
      (Except.error Err.forbidden,
       [Effect.commGetByID "c1", Effect.validateIsOwner "bob" "alice"]) ∧
    commentsDelete commRepoFx "bob" "c1" =
      (Except.error Err.forbidden,
       [Effect.commGetByID "c1", Effect.validateIsOwner "bob" "alice"]) :=
  ((C10_comments_guard_uses_stored_author commRepoFx "bob" commentFx).2
    ⟨"c1", "alice", "hello"⟩ rfl).1 (by decide)

end ApiMc
